import Mathlib

/-!
Shallow embedding of the transaction-data-report pipeline
(src/app/file_process/{file_manager,sales_monitor,report_generator}.py).

Part 1 models the batch-discovery and orchestration layer of
`sales_monitor.py` together with the watermark store of `file_manager.py`:
filename date extraction, candidate-batch discovery, watermark comparison,
and the event order of the initial load (`fill`) and of an update cycle
(`process_new_files`).

Part 2 models the dataframe pipeline of `report_generator.py`: category
mapping, anomaly detection over per-category predictors, the 30-day
aggregation window, and the report dictionary that `save_report` persists.
-/

/-- Calendar date as produced by `datetime(year, month, day)` in
`SalesMonitor.extract_date_from_filename`. -/
structure YMD where
  y : Nat
  m : Nat
  d : Nat
deriving DecidableEq

/-- Strict comparison of `datetime` values: lexicographic on
(year, month, day), mirroring Python `datetime.__lt__`. -/
def YMD.ltb (a b : YMD) : Bool :=
  decide (a.y < b.y) ||
    (decide (a.y = b.y) &&
      (decide (a.m < b.m) || (decide (a.m = b.m) && decide (a.d < b.d))))

/-- Numeric value of a decimal digit character. -/
def digitVal (c : Char) : Nat := c.toNat - 48

/-- Attempts to match the regex `(\d{4})-(\d{2})-(\d{2})` at the head of a
character list, returning the captured (year, month, day) numerals. -/
def matchDate : List Char → Option (Nat × Nat × Nat)
  | a :: b :: c :: d :: '-' :: e :: f :: '-' :: g :: h :: _ =>
    if a.isDigit && b.isDigit && c.isDigit && d.isDigit &&
       e.isDigit && f.isDigit && g.isDigit && h.isDigit then
      some (((digitVal a * 10 + digitVal b) * 10 + digitVal c) * 10 + digitVal d,
            digitVal e * 10 + digitVal f,
            digitVal g * 10 + digitVal h)
    else none
  | _ => none

/-- Leftmost match of `(\d{4})-(\d{2})-(\d{2})`, as found by `re.search`
scanning start positions left to right. -/
def findDate : List Char → Option (Nat × Nat × Nat)
  | [] => none
  | c :: rest =>
    match matchDate (c :: rest) with
    | some r => some r
    | none => findDate rest

/-- Length of a month in the proleptic Gregorian calendar, as used by
`datetime` to validate the day component. -/
def daysInMonth (y m : Nat) : Nat :=
  if m = 2 then
    if y % 4 = 0 && (y % 100 ≠ 0 || y % 400 = 0) then 29 else 28
  else if m = 4 || m = 6 || m = 9 || m = 11 then 30
  else 31

/-- The `datetime(y, m, d)` constructor: `some` date when the components
are valid, `none` when the constructor would raise `ValueError`. -/
def mkDatetime (y m d : Nat) : Option YMD :=
  if 1 ≤ y ∧ y ≤ 9999 ∧ 1 ≤ m ∧ m ≤ 12 ∧ 1 ≤ d ∧ d ≤ daysInMonth y m then
    some ⟨y, m, d⟩
  else none

/-- `SalesMonitor.extract_date_from_filename` (sales_monitor.py lines
42-48): `.ok (some date)` when the regex matches and `datetime` accepts the
numerals, `.ok none` when the regex does not match, and `.error ()` when
`datetime` raises on out-of-range components. -/
def extract_date_from_filename (f : String) : Except Unit (Option YMD) :=
  match findDate f.data with
  | none => Except.ok none
  | some (y, m, d) =>
    match mkDatetime y m d with
    | some dt => Except.ok (some dt)
    | none => Except.error ()

/-- `f.endswith(".csv")`, computed on the character list. -/
def endsWithCsv (f : String) : Bool :=
  f.data.reverse.take 4 == ['v', 's', 'c', '.']

/-- A character of the `\w` class (ASCII model) or one of `-`, `.`:
the character set of the watermark filename pattern in
`FileManager.set_last_processed_file`. -/
def wordDashDot (c : Char) : Bool :=
  c.isAlphanum || c = '_' || c = '-' || c = '.'

/-- The validation pattern `^[\w\-.]+\.csv$` of
`FileManager.set_last_processed_file` (file_manager.py line 43), modelled
over ASCII word characters. -/
def valid_filename (f : String) : Bool :=
  f.data.all wordDashDot && endsWithCsv f && decide (5 ≤ f.data.length)

/-- Strict lexicographic order on character lists, mirroring Python string
comparison for the sorted group keys. -/
def charListLt : List Char → List Char → Bool
  | [], [] => false
  | [], _ :: _ => true
  | _ :: _, [] => false
  | a :: as, b :: bs =>
    if a < b then true else if b < a then false else charListLt as bs

/-- Strict string comparison. -/
def strLtb (a b : String) : Bool := charListLt a.data b.data

/-- Non-strict string comparison used as the sorting relation for group
keys (pandas sorts group keys ascending). -/
def strLe (a b : String) : Prop := strLtb b a = false

instance : DecidableRel strLe :=
  fun a b => inferInstanceAs (Decidable (strLtb b a = false))

/-- Sorting relation of `dict(sorted(files.items(), key=lambda item:
item[1]))`: non-strict comparison on the date component, so that the
stable insertion sort reproduces Python's stable `sorted`. -/
def fileLe (a b : String × YMD) : Prop := YMD.ltb b.2 a.2 = false

instance : DecidableRel fileLe :=
  fun a b => inferInstanceAs (Decidable (YMD.ltb b.2 a.2 = false))

/-- The dict comprehension of `SalesMonitor._get_files_since` (lines
53-57): keep directory entries ending in `.csv` whose embedded date
parses, paired with that date. -/
def candidateFiles (listing : List String) : List (String × YMD) :=
  listing.filterMap fun f =>
    if endsWithCsv f then
      match extract_date_from_filename f with
      | Except.ok (some d) => some (f, d)
      | _ => none
    else none

/-- True when evaluating the comprehension condition on `f` raises:
`f.endswith(".csv")` holds but `extract_date_from_filename` raises
`ValueError` inside `datetime`. -/
def fileRaises (f : String) : Bool :=
  endsWithCsv f &&
    (match extract_date_from_filename f with
     | Except.error _ => true
     | Except.ok _ => false)

/-- `SalesMonitor._get_files_since` (lines 50-70) on a successful directory
listing: if any candidate raises during date extraction the surrounding
`except Exception` returns the empty dict; otherwise the candidates are
sorted (stably) by date and, when a watermark date is given, filtered to
those strictly newer than it. -/
def get_files_since (listing : List String) (date : Option YMD) :
    List (String × YMD) :=
  if listing.any fileRaises then []
  else
    let files := List.insertionSort fileLe (candidateFiles listing)
    match date with
    | none => files
    | some w => files.filter fun p => YMD.ltb w p.2

/-- Observable side-effecting steps of an orchestration cycle, in the
order they are executed by `SalesMonitor`. -/
inductive Event where
  | archiveReport
  | createDataframe
  | updateDataframe
  | generateReport
  | saveReport
  | setWatermark (f : String)
deriving DecidableEq

/-- `SalesMonitor.fill` (lines 109-128) as its trace of side effects, given
the directory listing and whether `save_report` succeeds. With candidate
files present it first writes the watermark (`set_last_processed_file`,
line 117), then builds the initial dataframe and generates the report, and
only then saves it; an invalid watermark filename raises at line 117 and
the caught exception ends the method before any report work. -/
def fill (listing : List String) (saveOk : Bool) : List Event :=
  match (get_files_since listing none).getLast? with
  | none => []
  | some (lastF, _) =>
    if valid_filename lastF then
      [Event.setWatermark lastF, Event.createDataframe, Event.generateReport]
        ++ (if saveOk then [Event.saveReport] else [])
    else []

/-- `SalesMonitor.process_new_files` (lines 72-107) as its trace of side
effects, given the stored watermark content, the directory listing, and
whether `save_report` succeeds. A failing `save_report` raises into the
surrounding `except Exception`, so the watermark write at line 100 is
skipped. -/
def process_new_files (lastProcessed : Option String) (listing : List String)
    (saveOk : Bool) : List Event :=
  match (match lastProcessed with
         | none => Except.ok (none : Option YMD)
         | some f => extract_date_from_filename f) with
  | Except.error _ => []
  | Except.ok lastDate =>
    match (get_files_since listing lastDate).getLast? with
    | none => []
    | some (lastF, _) =>
      if saveOk then
        [Event.archiveReport, Event.updateDataframe, Event.generateReport,
         Event.saveReport]
          ++ (if valid_filename lastF then [Event.setWatermark lastF] else [])
      else
        [Event.archiveReport, Event.updateDataframe, Event.generateReport]

/-- `SalesMonitor.__post_init__` (lines 31-40): it calls `fill`
unconditionally, regardless of any stored watermark; the watermark record
is read afterwards only to be logged. The `watermark` argument is the
pre-existing store content, which the code never consults. -/
def post_init (_watermark : Option String) (listing : List String)
    (saveOk : Bool) : List Event :=
  fill listing saveOk

/-- The fixed `CATEGORY_MAPPING` table of report_generator.py. -/
def CATEGORY_MAPPING : List (String × String) :=
  [("AA", "Carbonated Drink"),
   ("AB", "Plant-Based Drink"),
   ("AC", "Milkshake"),
   ("AD", "Fruit Juice"),
   ("AE", "Diet Drink"),
   ("AF", "Functional Beverage")]

/-- One row of the consolidated dataframe. `date` is the "Date" column
after `pd.to_datetime(..., errors="coerce").dt.date`, modelled as a day
index (`none` for an unparseable date / `NaT`); `sales` is the numeric
"Sales" column, modelled as a rational; `categoryMapped` is the derived
"Product Category Mapped" column (`none` for an unmapped code / `NaN`);
`is_anomaly` is the detection flag column, materialized with default 0. -/
structure Row where
  date : Option Int
  region : String
  productCategory : String
  categoryMapped : Option String
  product : String
  sales : Rat
  is_anomaly : Int
deriving DecidableEq

/-- `DataProcessor.map_categories`: sets "Product Category Mapped" from
"Product Category" via `CATEGORY_MAPPING` (unmapped codes become `NaN`). -/
def map_categories (r : Row) : Row :=
  { r with categoryMapped := CATEGORY_MAPPING.lookup r.productCategory }

/-- An opaque per-category model: `model.predict` over the partition's
sales column, which either returns one sentinel per row or raises. -/
def Predictor : Type := List Rat → Except Unit (List Int)

/-- Outcome of resolving and loading the model registry in
`ReportGenerator._detect_anomalies`: the artifact can be absent
(`path.exists()` false), `joblib.load` can raise, the loaded object can
fail `isinstance(models, dict)`, or a registry mapping is obtained. -/
inductive ModelSource where
  | missing
  | loadError
  | malformed
  | registry (models : List (String × Predictor))

/-- True for the degraded registry outcomes that zero the whole
`is_anomaly` column: missing artifact, load failure, non-dict artifact, or
an empty registry. -/
def ModelSource.isDegenerate : ModelSource → Bool
  | .missing => true
  | .loadError => true
  | .malformed => true
  | .registry models => models.isEmpty

/-- The rows of one category partition, in dataframe order: the group
`df.groupby("Product Category Mapped").groups[c]` (rows whose mapped
category is `NaN` belong to no group). -/
def catFilter (df : List Row) (c : String) : List Row :=
  df.filter fun r => r.categoryMapped == some c

/-- The sales column of one category partition:
`df.loc[idx, ["Sales"]]`. -/
def catSales (df : List Row) (c : String) : List Rat :=
  (catFilter df c).map fun r => r.sales

/-- The assignment `df.loc[idx, "is_anomaly"] = (preds == -1).astype(int)`
restricted to a partition already extracted in order: the i-th partition
row receives flag 1 when the i-th prediction is the sentinel `-1`, else
flag 0. -/
def setFlags : List Row → List Int → List Row
  | [], _ => []
  | r :: rs, [] => r :: rs
  | r :: rs, p :: ps =>
    { r with is_anomaly := if p = -1 then 1 else 0 } :: setFlags rs ps

/-- The same assignment performed positionally over the whole dataframe:
rows of category `c` consume the predictions in order, other rows are
untouched. -/
def assignFlags (c : String) : List Int → List Row → List Row
  | _, [] => []
  | preds, r :: rs =>
    if r.categoryMapped == some c then
      match preds with
      | [] => r :: assignFlags c [] rs
      | p :: ps =>
        { r with is_anomaly := if p = -1 then 1 else 0 } :: assignFlags c ps rs
    else r :: assignFlags c preds rs

/-- One iteration of the detection loop (report_generator.py lines
158-170) for category `c`: no registered model skips the partition; a
raising `model.predict` is caught and skips the partition; a prediction
vector of the wrong length would raise in the `df.loc` assignment and is
likewise caught; otherwise the partition's flags are overwritten. -/
def detectCategory (models : List (String × Predictor)) (df : List Row)
    (c : String) : List Row :=
  match models.lookup c with
  | none => df
  | some p =>
    match p (catSales df c) with
    | Except.error _ => df
    | Except.ok preds =>
      if preds.length = (catFilter df c).length then assignFlags c preds df
      else df

/-- The group keys of `df.groupby("Product Category Mapped")`: the distinct
mapped categories present, in ascending order. -/
def categoriesOf (df : List Row) : List String :=
  List.insertionSort strLe (df.filterMap fun r => r.categoryMapped).dedup

/-- The detection loop over all category partitions. -/
def detectLoop (models : List (String × Predictor)) (df : List Row) :
    List Row :=
  (categoriesOf df).foldl (fun acc c => detectCategory models acc c) df

/-- `ReportGenerator._detect_anomalies` (lines 119-173): a missing model
file, a load error, a non-dict artifact or an empty registry set the whole
`is_anomaly` column to 0 and return; with the "Product Category Mapped"
column absent the dataframe is returned with `is_anomaly` merely ensured
(already a field here); otherwise the per-category loop runs. The function
is total: detection never raises. -/
def detect_anomalies (source : ModelSource) (hasMappedCol : Bool)
    (df : List Row) : List Row :=
  match source with
  | .missing => df.map fun r => { r with is_anomaly := 0 }
  | .loadError => df.map fun r => { r with is_anomaly := 0 }
  | .malformed => df.map fun r => { r with is_anomaly := 0 }
  | .registry models =>
    if models.isEmpty then df.map fun r => { r with is_anomaly := 0 }
    else if hasMappedCol then detectLoop models df
    else df

/-- The effect of the detection loop on one category partition, expressed
on the partition alone; used to characterize `detectLoop`. -/
def partitionOutcome (models : List (String × Predictor)) (c : String)
    (part : List Row) : List Row :=
  match models.lookup c with
  | none => part
  | some p =>
    match p (part.map fun r => r.sales) with
    | Except.error _ => part
    | Except.ok preds =>
      if preds.length = part.length then setFlags part preds else part

/-- The 30-day window of `ReportGenerator.generate_report` (lines
196-202): keep rows whose coerced date satisfies
`Date >= today - timedelta(days=30)`; rows with unparseable dates (`NaT`)
fail the comparison and are dropped. -/
def windowFilter (today : Int) (df : List Row) : List Row :=
  df.filter fun r =>
    match r.date with
    | some d => decide (today - 30 ≤ d)
    | none => false

/-- Truncation of a rational to an integer, toward zero: the semantics of
`.astype(int)` on the summed sales. -/
def truncToInt (q : Rat) : Int := q.num.tdiv (q.den : Int)

/-- Round-half-to-even of a rational to an integer, the rounding used by
`.round(2)` on means (after scaling by 100). -/
def roundHalfEven (q : Rat) : Int :=
  let f : Int := ⌊q⌋
  let frac : Rat := q - f
  if frac < 1 / 2 then f
  else if 1 / 2 < frac then f + 1
  else if f % 2 = 0 then f else f + 1

/-- `.round(2)` on a rational value. -/
def round2 (q : Rat) : Rat := (roundHalfEven (q * 100) : Int) / 100

/-- Mean of a list of rationals (groups are nonempty, so the
division-by-zero default is never reached on group data). -/
def listMean (l : List Rat) : Rat := l.sum / (l.length : Rat)

/-- The group keys of `df.groupby(["Region"])`: distinct regions in
ascending order. -/
def regionKeys (df : List Row) : List String :=
  List.insertionSort strLe (df.map fun r => r.region).dedup

/-- `df_30.groupby(["Region"])["Sales"].mean().round(2)` as an ordered
association list. -/
def region_report_mean (df : List Row) : List (String × Rat) :=
  (regionKeys df).map fun g =>
    (g, round2 (listMean ((df.filter fun r => r.region == g).map
      fun r => r.sales)))

/-- The sum of the sales of one category partition. -/
def catSum (df : List Row) (c : String) : Rat := (catSales df c).sum

/-- `df_30.groupby(["Product Category Mapped"])["Sales"].sum().astype(int)`
(report_generator.py line 207) as an ordered association list: per-category
totals, truncated to integer. -/
def beverage_report_total (df : List Row) : List (String × Int) :=
  (categoriesOf df).map fun c => (c, truncToInt (catSum df c))

/-- `df_30.groupby(["Product Category Mapped"])["Sales"].mean().round(2)`
(line 208) as an ordered association list. -/
def beverage_report_mean (df : List Row) : List (String × Rat) :=
  (categoriesOf df).map fun c => (c, round2 (listMean (catSales df c)))

/-- The same-day anomaly rows (line 212):
`df_30[(df_30["is_anomaly"] == 1) & (df_30["Date"] == today)]`. -/
def today_anoms (today : Int) (df30 : List Row) : List Row :=
  df30.filter fun r => r.is_anomaly == 1 && r.date == some today

/-- A JSON-like value, the shape of the document `save_report` writes with
`json.dumps(self.report_dict, default=str)`. -/
inductive JVal where
  | jnum (q : Rat)
  | jint (n : Int)
  | jstr (s : String)
  | jarr (l : List JVal)
  | jobj (l : List (String × JVal))

/-- One anomaly record of `today_anoms.to_dict(orient="records")`: the full
row detail, with the date serialized by `default=str`. -/
def rowRecord (r : Row) : JVal :=
  JVal.jobj
    [("Date", JVal.jstr (match r.date with
        | some d => toString d
        | none => "NaT")),
     ("Region", JVal.jstr r.region),
     ("Product Category", JVal.jstr r.productCategory),
     ("Product Category Mapped", JVal.jstr (match r.categoryMapped with
        | some c => c
        | none => "NaN")),
     ("Product", JVal.jstr r.product),
     ("Sales", JVal.jnum r.sales),
     ("is_anomaly", JVal.jint r.is_anomaly)]

/-- `self.report_dict` as assembled by `ReportGenerator.generate_report`
(lines 205-230) from the windowed dataframe: the three aggregate entries
(lines 205-209) followed by the `today_anomalies` entry, whose two
branches (non-empty and empty digest, lines 214-230) both produce the keys
`total_anomalies` and `records`. -/
def report_dict (today : Int) (df30 : List Row) : List (String × JVal) :=
  let anoms := today_anoms today df30
  [("region_report_mean",
      JVal.jobj ((region_report_mean df30).map fun p => (p.1, JVal.jnum p.2))),
   ("beverage_report_total",
      JVal.jobj ((beverage_report_total df30).map fun p => (p.1, JVal.jint p.2))),
   ("beverage_report_mean",
      JVal.jobj ((beverage_report_mean df30).map fun p => (p.1, JVal.jnum p.2))),
   ("today_anomalies",
      JVal.jobj [("total_anomalies", JVal.jint (anoms.length : Int)),
                 ("records", JVal.jarr (anoms.map rowRecord))])]

/-- `ReportGenerator.generate_report` (lines 178-233): optionally re-run
anomaly detection over the full dataframe, window the result to the last
30 days relative to `today`, and assemble `self.report_dict`. Returns the
(possibly re-flagged) dataframe and the dictionary that `save_report`
serializes verbatim. -/
def generate_report (source : ModelSource) (run_anomaly_detection : Bool)
    (today : Int) (df : List Row) : List Row × List (String × JVal) :=
  let df2 := if run_anomaly_detection then detect_anomalies source true df else df
  (df2, report_dict today (windowFilter today df2))

/-- `ReportGenerator.update_dataframe` (lines 91-114): with no new files
the method returns before touching the dataframe; otherwise the mapped new
rows are concatenated after the existing ones and anomaly detection is
re-run over the whole dataframe by the nested `generate_report` call. -/
def update_dataframe (source : ModelSource) (df : List Row)
    (batches : List (List Row)) : List Row :=
  match batches with
  | [] => df
  | _ =>
    detect_anomalies source true
      (df ++ (batches.map fun b => b.map map_categories).flatten)

/-- A sample transaction row used to instantiate theorems. -/
def exampleRow : Row :=
  { date := some 40, region := "North", productCategory := "AA",
    categoryMapped := some "Carbonated Drink", product := "cola",
    sales := 10, is_anomaly := 1 }

/-- A predictor whose invocation raises, as a mocked failing model. -/
def predFail : Predictor := fun _ => Except.error ()

/-- A working predictor: flags sales above 100 with the sentinel `-1`. -/
def predOk : Predictor :=
  fun sales => Except.ok (sales.map fun s => if (100 : Rat) < s then -1 else 1)

/-- A registry holding a failing model for one category and a working one
for another. -/
def models5 : List (String × Predictor) :=
  [("Carbonated Drink", predFail), ("Milkshake", predOk)]

/-- A dataset with one Carbonated Drink row and two Milkshake rows. -/
def df5 : List Row :=
  [{ date := some 10, region := "North", productCategory := "AA",
     categoryMapped := some "Carbonated Drink", product := "cola",
     sales := 500, is_anomaly := 0 },
   { date := some 10, region := "South", productCategory := "AC",
     categoryMapped := some "Milkshake", product := "shake-big",
     sales := 150, is_anomaly := 0 },
   { date := some 11, region := "South", productCategory := "AC",
     categoryMapped := some "Milkshake", product := "shake-small",
     sales := 50, is_anomaly := 0 }]

/-- A dataset whose Milkshake sales sum to 299.9. -/
def df8 : List Row :=
  [{ date := some 0, region := "North", productCategory := "AC",
     categoryMapped := some "Milkshake", product := "m1",
     sales := (14995 : Rat) / 100, is_anomaly := 0 },
   { date := some 0, region := "South", productCategory := "AC",
     categoryMapped := some "Milkshake", product := "m2",
     sales := (14995 : Rat) / 100, is_anomaly := 0 }]

/-- Looking up a key present in `ks` inside the association list that
tabulates `g` over `ks` yields `g` at that key. -/
theorem lookup_map_key {β : Type} (g : String → β) (ks : List String)
    (c : String) (h : c ∈ ks) :
    (ks.map fun k => (k, g k)).lookup c = some (g c) := by
  induction ks with
  | nil => simp at h
  | cons k ks ih =>
    rcases hbe : (c == k) with _ | _
    · have hck : c ≠ k := by
        intro hh
        subst hh
        simp at hbe
      have hmem : c ∈ ks := by
        rcases List.mem_cons.mp h with h1 | h2
        · exact absurd h1 hck
        · exact h2
      simp only [List.map_cons, List.lookup, hbe]
      exact ih hmem
    · have hck : c = k := eq_of_beq hbe
      subst hck
      simp only [List.map_cons, List.lookup, hbe]

/-- C9: for every dataset D, merging an empty batch list into D is a
no-op: the merged dataset equals D, with no rows added, removed or
reordered (`update_dataframe` returns before touching the dataframe). -/
theorem claim_C9 (source : ModelSource) (df : List Row) :
    update_dataframe source df [] = df := rfl

/-- C4: for every dataset and every degraded model source (missing
artifact, load failure, malformed registry, or empty registry), anomaly
detection sets `is_anomaly` to 0 on every row regardless of the sales
values; the embedded function is total, so detection ends without
raising. -/
theorem claim_C4 (source : ModelSource) (hasCol : Bool) (df : List Row)
    (h : source.isDegenerate = true) :
    detect_anomalies source hasCol df =
      df.map fun r => { r with is_anomaly := 0 } := by
  cases source with
  | missing => rfl
  | loadError => rfl
  | malformed => rfl
  | registry models =>
    simp only [ModelSource.isDegenerate] at h
    simp [detect_anomalies, h]

/-- Witness for C4: an empty registry zeroes the anomaly flag of a row
that previously carried flag 1. -/
theorem claim_C4_witness :
    (ModelSource.registry []).isDegenerate = true ∧
    detect_anomalies (ModelSource.registry []) true [exampleRow] =
      [{ exampleRow with is_anomaly := 0 }] :=
  ⟨rfl, (claim_C4 (ModelSource.registry []) true [exampleRow] rfl).trans rfl⟩

/-- C2 counterexample: at a concrete input the persisted report document
does not carry the claimed top-level keys `category_report_total` and
`category_report_mean`; the code uses `beverage_report_total` and
`beverage_report_mean` instead. -/
theorem claim_C2_cex :
    ((generate_report ModelSource.missing true 0 []).2.map Prod.fst) ≠
      ["region_report_mean", "category_report_total", "category_report_mean",
       "today_anomalies"] := by
  decide

/-- C2 amended: every generated report document has exactly the top-level
keys `region_report_mean`, `beverage_report_total`, `beverage_report_mean`
and `today_anomalies`, the last being a structure with the fields
`total_anomalies` and `records`. -/
theorem claim_C2_report_keys (source : ModelSource) (runDet : Bool)
    (today : Int) (df : List Row) :
    (generate_report source runDet today df).2.map Prod.fst =
      ["region_report_mean", "beverage_report_total", "beverage_report_mean",
       "today_anomalies"] ∧
    ∃ n recs,
      (generate_report source runDet today df).2.lookup "today_anomalies" =
        some (JVal.jobj [("total_anomalies", JVal.jint n),
                         ("records", JVal.jarr recs)]) := by
  refine ⟨rfl, ?_, ?_, ?_⟩
  · exact ((today_anoms today (windowFilter today
      (if runDet then detect_anomalies source true df else df))).length : Int)
  · exact (today_anoms today (windowFilter today
      (if runDet then detect_anomalies source true df else df))).map rowRecord
  · rfl

/-- C3 counterexample: with a watermark already stored, initialization
still performs the full load over every discovered batch and overwrites
the watermark with the latest-dated batch. -/
theorem claim_C3_cex :
    post_init (some "sales_2024-01-01.csv")
        ["sales_2024-01-01.csv", "sales_2024-01-05.csv"] true =
      [Event.setWatermark "sales_2024-01-05.csv", Event.createDataframe,
       Event.generateReport, Event.saveReport] := by
  decide

/-- C3 amended: orchestrator initialization takes the full-load path
unconditionally — its trace does not depend on whether a watermark
already exists, and always equals the trace of `fill`. -/
theorem claim_C3_always_full_load (wm wm' : Option String)
    (listing : List String) (saveOk : Bool) :
    post_init wm listing saveOk = post_init wm' listing saveOk ∧
    post_init wm listing saveOk = fill listing saveOk :=
  ⟨rfl, rfl⟩

/-- C1 counterexample: in the initial full load, when report persistence
fails, the watermark has nevertheless already been written — the trace
contains the watermark write but no completed save. -/
theorem claim_C1_cex :
    fill ["sales_2024-01-01.csv"] false =
      [Event.setWatermark "sales_2024-01-01.csv", Event.createDataframe,
       Event.generateReport] := by
  decide

/-- C1 amended: in update cycles (`process_new_files`) the watermark is
written only after `save_report` completes successfully — any trace
containing a watermark write is the successful five-step trace ending in
it; in the initial full load (`fill`) the watermark write is instead the
first step, before the report is generated or persisted. -/
theorem claim_C1_watermark_order :
    (∀ (lastp : Option String) (listing : List String) (saveOk : Bool)
        (f : String),
        Event.setWatermark f ∈ process_new_files lastp listing saveOk →
        saveOk = true ∧
        process_new_files lastp listing saveOk =
          [Event.archiveReport, Event.updateDataframe, Event.generateReport,
           Event.saveReport, Event.setWatermark f]) ∧
    (∀ (listing : List String) (saveOk : Bool) (f : String),
        Event.setWatermark f ∈ fill listing saveOk →
        (fill listing saveOk).head? = some (Event.setWatermark f)) := by
  constructor
  · intro lastp listing saveOk f h
    unfold process_new_files at h ⊢
    rcases hx : (match lastp with
        | none => Except.ok (none : Option YMD)
        | some f => extract_date_from_filename f) with e | lastDate
    · simp only [hx] at h
      simp at h
    · simp only [hx] at h ⊢
      rcases hg : (get_files_since listing lastDate).getLast? with _ | ⟨lastF, dt⟩
      · simp only [hg] at h
        simp at h
      · simp only [hg] at h ⊢
        cases saveOk with
        | false => simp at h
        | true =>
          by_cases hv : valid_filename lastF
          · simp [hv] at h
            subst h
            simp [hv]
          · simp [hv] at h
  · intro listing saveOk f h
    unfold fill at h ⊢
    rcases hg : (get_files_since listing none).getLast? with _ | ⟨lastF, dt⟩
    · simp only [hg] at h
      simp at h
    · simp only [hg] at h ⊢
      by_cases hv : valid_filename lastF
      · simp only [hv] at h ⊢
        have hf : f = lastF := by
          cases saveOk with
          | false => simpa using h
          | true => simpa using h
        subst hf
        simp
      · simp [hv] at h

/-- Witness for C1: a successful update cycle over one new batch ends with
the watermark write right after the save; a successful initial load begins
with the watermark write. -/
theorem claim_C1_witness :
    (true = true ∧
      process_new_files (some "a_2024-01-01.csv")
          ["a_2024-01-01.csv", "b_2024-01-02.csv"] true =
        [Event.archiveReport, Event.updateDataframe, Event.generateReport,
         Event.saveReport, Event.setWatermark "b_2024-01-02.csv"]) ∧
    (fill ["a_2024-01-01.csv"] true).head? =
      some (Event.setWatermark "a_2024-01-01.csv") := by
  constructor
  · exact claim_C1_watermark_order.1 (some "a_2024-01-01.csv")
      ["a_2024-01-01.csv", "b_2024-01-02.csv"] true "b_2024-01-02.csv"
      (by decide)
  · exact claim_C1_watermark_order.2 ["a_2024-01-01.csv"] true
      "a_2024-01-01.csv" (by decide)

/-- C6: a discovered candidate batch is selected as new against a
watermark date exactly when its derived date is strictly greater, and the
strict comparison is irreflexive, so a batch dated equal to the watermark
is never selected. -/
theorem claim_C6 (listing : List String) (w : YMD) (f : String) (d : YMD) :
    ((f, d) ∈ get_files_since listing (some w) ↔
      ((f, d) ∈ get_files_since listing none ∧ YMD.ltb w d = true)) ∧
    YMD.ltb w w = false := by
  constructor
  · unfold get_files_since
    by_cases hr : listing.any fileRaises
    · simp [hr]
    · simp [hr, List.mem_filter]
  · simp [YMD.ltb]

/-- Witness for C6: with watermark date 2024-01-01, the batch dated
2024-01-05 is selected and the equal-dated comparison is false. -/
theorem claim_C6_witness :
    ("b_2024-01-05.csv", (⟨2024, 1, 5⟩ : YMD)) ∈
      get_files_since ["a_2024-01-01.csv", "b_2024-01-05.csv"]
        (some ⟨2024, 1, 1⟩) ∧
    YMD.ltb ⟨2024, 1, 1⟩ ⟨2024, 1, 1⟩ = false := by
  have h := claim_C6 ["a_2024-01-01.csv", "b_2024-01-05.csv"] ⟨2024, 1, 1⟩
    "b_2024-01-05.csv" ⟨2024, 1, 5⟩
  exact ⟨h.1.mpr ⟨by decide, by decide⟩, h.2⟩

/-- C7: the aggregation window keeps exactly the rows dated on or after
`today - 30`; a row dated exactly 30 days before is kept, one dated
exactly 31 days before is dropped, and future-dated rows are kept. -/
theorem claim_C7 (today : Int) (df : List Row) (r : Row) :
    (r ∈ windowFilter today df ↔
      r ∈ df ∧ ∃ d, r.date = some d ∧ today - 30 ≤ d) ∧
    windowFilter today [{ r with date := some (today - 30) }] =
      [{ r with date := some (today - 30) }] ∧
    windowFilter today [{ r with date := some (today - 31) }] = [] ∧
    ∀ k : Nat, windowFilter today [{ r with date := some (today + k) }] =
      [{ r with date := some (today + k) }] := by
  refine ⟨?_, ?_, ?_, ?_⟩
  · unfold windowFilter
    rw [List.mem_filter]
    constructor
    · rintro ⟨hm, hp⟩
      refine ⟨hm, ?_⟩
      cases hd : r.date with
      | none =>
        rw [hd] at hp
        simp at hp
      | some d =>
        rw [hd] at hp
        simp at hp
        exact ⟨d, rfl, by omega⟩
    · rintro ⟨hm, d, hd, hle⟩
      refine ⟨hm, ?_⟩
      rw [hd]
      simp
      omega
  · simp [windowFilter]
  · simp [windowFilter]
    omega
  · intro k
    simp [windowFilter]
    omega

/-- Witness for C7: at reference date 0, the row dated exactly 30 days
before is inside the window. -/
theorem claim_C7_witness :
    windowFilter 0 [{ exampleRow with date := some (0 - 30) }] =
      [{ exampleRow with date := some (0 - 30) }] :=
  (claim_C7 0 [] exampleRow).2.1

/-- C10: a directory entry is a candidate batch only if its name ends in
`.csv` and embeds a parseable `YYYY-MM-DD` date, which is the date the
batch is selected under; a file embedding a valid date but carrying any
other extension is therefore never selected. -/
theorem claim_C10 (listing : List String) (date : Option YMD) (f : String)
    (d : YMD) (h : (f, d) ∈ get_files_since listing date) :
    endsWithCsv f = true ∧
    extract_date_from_filename f = Except.ok (some d) := by
  unfold get_files_since at h
  by_cases hr : listing.any fileRaises
  · simp [hr] at h
  · rw [if_neg hr] at h
    have hmem : (f, d) ∈ candidateFiles listing := by
      cases date with
      | none => simpa using h
      | some w =>
        have h2 : (f, d) ∈ candidateFiles listing ∧ YMD.ltb w d = true := by
          simpa using h
        exact h2.1
    unfold candidateFiles at hmem
    rw [List.mem_filterMap] at hmem
    obtain ⟨a, _, hfa⟩ := hmem
    by_cases he : endsWithCsv a
    · rw [if_pos he] at hfa
      cases hx : extract_date_from_filename a with
      | error e =>
        rw [hx] at hfa
        simp at hfa
      | ok o =>
        cases o with
        | none =>
          rw [hx] at hfa
          simp at hfa
        | some d' =>
          rw [hx] at hfa
          simp at hfa
          obtain ⟨haf, hdd⟩ := hfa
          subst haf
          subst hdd
          exact ⟨he, hx⟩
    · rw [if_neg he] at hfa
      simp at hfa

/-- Witness for C10: a selected candidate indeed ends in `.csv` and its
embedded date is the selection date. -/
theorem claim_C10_witness :
    endsWithCsv "x_2024-02-03.csv" = true ∧
    extract_date_from_filename "x_2024-02-03.csv" =
      Except.ok (some ⟨2024, 2, 3⟩) :=
  claim_C10 ["x_2024-02-03.csv"] none "x_2024-02-03.csv" ⟨2024, 2, 3⟩
    (by decide)

/-- C8: the per-category entry of the category total report is the
integer truncation (toward zero, as `.astype(int)`) of the exact sum of
that category's windowed sales, and truncation of 299.9 yields 299, not
300. -/
theorem claim_C8 :
    (∀ (today : Int) (df : List Row) (c : String),
        c ∈ categoriesOf (windowFilter today df) →
        (beverage_report_total (windowFilter today df)).lookup c =
          some (truncToInt (catSum (windowFilter today df) c))) ∧
    truncToInt ((2999 : Rat) / 10) = 299 := by
  constructor
  · intro today df c hc
    unfold beverage_report_total
    exact lookup_map_key _ _ _ hc
  · rw [show ((2999 : Rat) / 10) = mkRat 2999 10 by
      rw [Rat.mkRat_eq_div]; norm_num]
    decide

/-- Witness for C8: a category whose windowed sales sum to 299.9 is
reported with total 299. -/
theorem claim_C8_witness :
    (beverage_report_total (windowFilter 0 df8)).lookup "Milkshake" =
      some 299 := by
  have h := claim_C8.1 0 df8 "Milkshake" (by decide)
  have hcs : catSales (windowFilter 0 df8) "Milkshake" =
      [(14995 : Rat) / 100, (14995 : Rat) / 100] := rfl
  have hsum : catSum (windowFilter 0 df8) "Milkshake" = mkRat 2999 10 := by
    show (catSales (windowFilter 0 df8) "Milkshake").sum = mkRat 2999 10
    rw [hcs, Rat.mkRat_eq_div]
    norm_num [List.sum]
  rw [h, hsum]
  decide

/-- Updating the anomaly flag leaves the category column unchanged. -/
@[simp] theorem categoryMapped_setAnomaly (r : Row) (x : Int) :
    ({ r with is_anomaly := x } : Row).categoryMapped = r.categoryMapped := rfl

/-- `setFlags` with no predictions leaves the partition unchanged. -/
theorem setFlags_nil (l : List Row) : setFlags l [] = l := by
  cases l <;> rfl

/-- `assignFlags` with no predictions leaves the dataframe unchanged. -/
theorem assignFlags_nil (c : String) (df : List Row) :
    assignFlags c [] df = df := by
  induction df with
  | nil => rfl
  | cons r rs ih =>
    by_cases h : (r.categoryMapped == some c) = true
    · simp [assignFlags, h, ih]
    · simp [assignFlags, h, ih]

/-- Restricted to its own category, `assignFlags` acts as `setFlags` on
the partition. -/
theorem catFilter_assignFlags_self (c : String) (df : List Row) :
    ∀ preds, catFilter (assignFlags c preds df) c =
      setFlags (catFilter df c) preds := by
  induction df with
  | nil => intro preds; rfl
  | cons r rs ih =>
    intro preds
    by_cases h : (r.categoryMapped == some c) = true
    · cases preds with
      | nil => rw [assignFlags_nil, setFlags_nil]
      | cons p ps =>
        simp only [assignFlags, h, if_true]
        simp only [catFilter, List.filter_cons, h, categoryMapped_setAnomaly,
          if_true]
        simp only [setFlags]
        exact congrArg _ (ih ps)
    · simp only [assignFlags, h]
      simp only [Bool.false_eq_true, if_false]
      simp only [catFilter, List.filter_cons, h, Bool.false_eq_true, if_false]
      exact ih preds

/-- Restricted to any other category, `assignFlags` changes nothing. -/
theorem catFilter_assignFlags_other {c cO : String} (hne : cO ≠ c)
    (df : List Row) :
    ∀ preds, catFilter (assignFlags c preds df) cO = catFilter df cO := by
  induction df with
  | nil => intro preds; rfl
  | cons r rs ih =>
    intro preds
    by_cases h : (r.categoryMapped == some c) = true
    · have h2 : (r.categoryMapped == some cO) = false := by
        have hc : r.categoryMapped = some c := eq_of_beq h
        rw [hc]
        simp
        exact fun hh => hne hh.symm
      cases preds with
      | nil =>
        rw [assignFlags_nil]
      | cons p ps =>
        simp only [assignFlags, h, if_true]
        simp only [catFilter, List.filter_cons, h2, categoryMapped_setAnomaly,
          Bool.false_eq_true, if_false]
        exact ih ps
    · simp only [assignFlags, h, Bool.false_eq_true, if_false]
      by_cases h2 : (r.categoryMapped == some cO) = true
      · simp only [catFilter, List.filter_cons, h2, if_true]
        exact congrArg _ (ih preds)
      · simp only [catFilter, List.filter_cons, h2, Bool.false_eq_true,
          if_false]
        exact ih preds

/-- One detection step, restricted to its own category, acts as
`partitionOutcome` on the partition. -/
theorem catFilter_detectCategory_self (models : List (String × Predictor))
    (df : List Row) (c : String) :
    catFilter (detectCategory models df c) c =
      partitionOutcome models c (catFilter df c) := by
  rcases hlk : models.lookup c with _ | p
  · simp [detectCategory, partitionOutcome, hlk]
  · have hcs : catSales df c = (catFilter df c).map fun r => r.sales := rfl
    rcases hp : p (catSales df c) with e | preds
    · rw [hcs] at hp
      simp [detectCategory, partitionOutcome, hlk, hcs, hp]
    · rw [hcs] at hp
      by_cases hl : preds.length = (catFilter df c).length
      · simp [detectCategory, partitionOutcome, hlk, hcs, hp, hl,
          catFilter_assignFlags_self]
      · simp [detectCategory, partitionOutcome, hlk, hcs, hp, hl]

/-- One detection step for a category never touches the rows of another
category. -/
theorem catFilter_detectCategory_other (models : List (String × Predictor))
    (df : List Row) {c cO : String} (hne : cO ≠ c) :
    catFilter (detectCategory models df c) cO = catFilter df cO := by
  rcases hlk : models.lookup c with _ | p
  · simp [detectCategory, hlk]
  · rcases hp : p (catSales df c) with e | preds
    · simp [detectCategory, hlk, hp]
    · by_cases hl : preds.length = (catFilter df c).length
      · simp [detectCategory, hlk, hp, hl, catFilter_assignFlags_other hne]
      · simp [detectCategory, hlk, hp, hl]

/-- Folding detection steps over categories not containing `c` leaves the
`c` partition unchanged. -/
theorem catFilter_foldl_not_mem (models : List (String × Predictor))
    {c : String} :
    ∀ (cs : List String), c ∉ cs → ∀ df : List Row,
      catFilter (cs.foldl (fun acc u => detectCategory models acc u) df) c =
        catFilter df c := by
  intro cs
  induction cs with
  | nil => intro _ df; rfl
  | cons u cs ih =>
    intro h df
    rw [List.foldl_cons]
    have hcu : c ≠ u := fun hh => h (hh ▸ List.mem_cons_self u cs)
    rw [ih (fun hh => h (List.mem_cons_of_mem u hh))]
    exact catFilter_detectCategory_other models df hcu

/-- Folding detection steps over a duplicate-free category list containing
`c` acts on the `c` partition as a single `partitionOutcome`. -/
theorem catFilter_foldl_mem (models : List (String × Predictor)) :
    ∀ (cs : List String), cs.Nodup → ∀ {c : String}, c ∈ cs →
      ∀ df : List Row,
      catFilter (cs.foldl (fun acc u => detectCategory models acc u) df) c =
        partitionOutcome models c (catFilter df c) := by
  intro cs
  induction cs with
  | nil =>
    intro _ c hc
    simp at hc
  | cons u cs ih =>
    intro hnd c hc df
    rw [List.foldl_cons]
    have hu : u ∉ cs := (List.nodup_cons.mp hnd).1
    have hnd2 : cs.Nodup := (List.nodup_cons.mp hnd).2
    rcases List.mem_cons.mp hc with rfl | hmem
    · rw [catFilter_foldl_not_mem models cs hu]
      exact catFilter_detectCategory_self models df c
    · have hcu : c ≠ u := fun hh => hu (hh ▸ hmem)
      rw [ih hnd2 hmem]
      rw [catFilter_detectCategory_other models df hcu]

/-- The group-key list of a dataframe has no duplicates. -/
theorem nodup_categoriesOf (df : List Row) : (categoriesOf df).Nodup :=
  ((List.perm_insertionSort strLe _).nodup_iff).mpr (List.nodup_dedup _)

/-- A category is a group key exactly when some row carries it. -/
theorem mem_categoriesOf (df : List Row) (c : String) :
    c ∈ categoriesOf df ↔ ∃ r ∈ df, r.categoryMapped = some c := by
  unfold categoriesOf
  rw [List.mem_insertionSort, List.mem_dedup, List.mem_filterMap]

/-- A category that is no group key has an empty partition. -/
theorem catFilter_eq_nil (df : List Row) (c : String)
    (h : c ∉ categoriesOf df) : catFilter df c = [] := by
  rw [mem_categoriesOf] at h
  push_neg at h
  unfold catFilter
  rw [List.filter_eq_nil_iff]
  intro a ha
  simp [h a ha]

/-- `partitionOutcome` on an empty partition is empty. -/
theorem partitionOutcome_nil (models : List (String × Predictor))
    (c : String) : partitionOutcome models c [] = [] := by
  rcases hlk : models.lookup c with _ | p
  · simp [partitionOutcome, hlk]
  · rcases hp : p [] with e | preds
    · simp [partitionOutcome, hlk, hp]
    · simp only [partitionOutcome, hlk, List.map_nil, hp]
      split
      · rfl
      · rfl

/-- Characterization of the detection loop: on every category partition it
acts as the single-step `partitionOutcome` computed from the original
partition. -/
theorem detectLoop_filter (models : List (String × Predictor))
    (df : List Row) (c : String) :
    catFilter (detectLoop models df) c =
      partitionOutcome models c (catFilter df c) := by
  by_cases hc : c ∈ categoriesOf df
  · exact catFilter_foldl_mem models _ (nodup_categoriesOf df) hc df
  · unfold detectLoop
    rw [catFilter_foldl_not_mem models _ hc]
    rw [catFilter_eq_nil df c hc, partitionOutcome_nil]

/-- C5: during anomaly detection, a category partition whose predictor
raises keeps its current (default) anomaly flags, while every other
category partition with a working predictor is still flagged from its
predictions — per-partition failure isolation; the embedded detection is
total, so the error does not propagate. -/
theorem claim_C5 (models : List (String × Predictor)) (df : List Row)
    (cX cY : String) (pX pY : Predictor) (preds : List Int)
    (hlX : models.lookup cX = some pX)
    (hfail : pX (catSales df cX) = Except.error ())
    (hlY : models.lookup cY = some pY)
    (hok : pY (catSales df cY) = Except.ok preds)
    (hlen : preds.length = (catFilter df cY).length) :
    catFilter (detect_anomalies (ModelSource.registry models) true df) cX =
      catFilter df cX ∧
    catFilter (detect_anomalies (ModelSource.registry models) true df) cY =
      setFlags (catFilter df cY) preds := by
  have hne : models.isEmpty = false := by
    cases models with
    | nil => simp [List.lookup] at hlX
    | cons m ms => rfl
  have hd : detect_anomalies (ModelSource.registry models) true df =
      detectLoop models df := by
    simp [detect_anomalies, hne]
  rw [hd]
  constructor
  · rw [detectLoop_filter]
    have hfailF : pX ((catFilter df cX).map fun r => r.sales) =
        Except.error () := hfail
    simp [partitionOutcome, hlX, hfailF]
  · rw [detectLoop_filter]
    have hokF : pY ((catFilter df cY).map fun r => r.sales) =
        Except.ok preds := hok
    simp [partitionOutcome, hlY, hokF, hlen]

/-- Witness for C5: with a failing Carbonated Drink model and a working
Milkshake model, the Carbonated Drink partition is unchanged while the
Milkshake partition receives its predicted flags. -/
theorem claim_C5_witness :
    catFilter (detect_anomalies (ModelSource.registry models5) true df5)
        "Carbonated Drink" = catFilter df5 "Carbonated Drink" ∧
    catFilter (detect_anomalies (ModelSource.registry models5) true df5)
        "Milkshake" = setFlags (catFilter df5 "Milkshake") [-1, 1] :=
  claim_C5 models5 df5 "Carbonated Drink" "Milkshake" predFail predOk
    [-1, 1] rfl rfl rfl rfl rfl
